import Mathlib

/-!
Verification development for the plant-monitor backend
(UjwalStha7/plant-monitor-backend).

The repository is a Node/Express server in several near-duplicate
variants.  The canonical variant (server.js, the "v3.0 MongoDB + email
alerts" section) provides:

  * `isNightTime()`            - night classification in Nepal time (UTC+5:45);
  * `sendAlert(reading)`       - the alert policy engine: configured-transporter
                                 guard, 30-minute global cooldown, night
                                 suppression of light-only alerts, cooldown
                                 timestamp update after a successful send;
  * `POST /api/readings`       - ingestion: validation, persistence, alert call;
  * `GET /api/sensor-data` and `GET /api/readings/latest`
                               - device presence from recency of latest reading;
  * `GET /api/test-email`      - SendGrid variant: test send that saves, zeros
                                 and restores the cooldown timestamp.

All clock values are modelled as natural numbers of milliseconds since
the Unix epoch (JavaScript `Date.now()`).  The external mail transport is
modelled by two booleans: `configured` (a transporter object exists) and
`dispatchOk` (the `transporter.sendMail` promise resolves rather than
rejects).  Conditions are the raw strings the server compares against
`Bad`.
-/

namespace PlantMonitor

/-- Nepal civil-time offset in milliseconds, from `isNightTime`:
`5.75 * 60 * 60 * 1000`. -/
def nepalOffset : Nat := 20700000

/-- Global alert cooldown in milliseconds, from `ALERT_COOLDOWN = 30 * 60 * 1000`. -/
def ALERT_COOLDOWN : Nat := 30 * 60 * 1000

/-- Embedding of `isNightTime()` (server.js lines 406-415 and 809-815):
add the Nepal offset to the current epoch-milliseconds, take the UTC hour
(`getUTCHours` is floor-division by 3600000 modulo 24), and report night
when that hour is `>= 19 || < 6`. -/
def isNightTime (now : Nat) : Bool :=
  let nepalTime := now + nepalOffset
  let hour := nepalTime / 3600000 % 24
  decide (19 ≤ hour) || decide (hour < 6)

/-- Minute-of-day of the Nepal civil time corresponding to an epoch instant;
used to state the [19:00, 06:00) night interval (1140 = 19*60, 360 = 6*60
minutes after local midnight). -/
def localMinuteOfDay (now : Nat) : Nat :=
  (now + nepalOffset) / 60000 % 1440

/-- One stored sensor reading (the mongoose `Reading` document fields the
alert and presence logic read).  `receivedAt` is epoch milliseconds. -/
structure Reading where
  deviceId : String
  soilValue : Int
  ldrValue : Int
  soilCondition : String
  lightCondition : String
  receivedAt : Nat
deriving DecidableEq, Repr

/-- Result of one `sendAlert` call: whether `transporter.sendMail` was
invoked (at most once per call), and the value of the module-level
`lastAlertTime` after the call returns. -/
structure AlertResult where
  attempted : Bool
  lastAlertTime : Nat
deriving DecidableEq, Repr

/-- Embedding of `sendAlert(reading)` (server.js lines 417-473; the
SendGrid variant at lines 817-894 differs only in message formatting and
in how `configured` is computed).  Control flow, in source order:

1. no transporter configured: log and return;
2. `now - lastAlertTime < ALERT_COOLDOWN`: cooldown active, return;
3. eligibility: `shouldSendLDRAlert = (lightCondition is Bad) && !isNight`,
   `shouldSendSoilAlert = (soilCondition is Bad)`; if neither, return;
4. `await transporter.sendMail(...)`; on success `lastAlertTime = now`;
   a rejection is caught and logged, leaving `lastAlertTime` unchanged.

JavaScript `now - lastAlertTime` can be negative when `lastAlertTime`
is in the future; truncated natural subtraction gives 0 there, and both
values are `< ALERT_COOLDOWN`, so the branch taken is identical. -/
def sendAlert (configured dispatchOk : Bool) (now : Nat) (reading : Reading)
    (lastAlertTime : Nat) : AlertResult :=
  if !configured then ⟨false, lastAlertTime⟩
  else if now - lastAlertTime < ALERT_COOLDOWN then ⟨false, lastAlertTime⟩
  else
    let isNight := isNightTime now
    let shouldSendLDRAlert := reading.lightCondition == "Bad" && !isNight
    let shouldSendSoilAlert := reading.soilCondition == "Bad"
    if !shouldSendLDRAlert && !shouldSendSoilAlert then ⟨false, lastAlertTime⟩
    else if dispatchOk then ⟨true, now⟩
    else ⟨true, lastAlertTime⟩

/-- JavaScript truthiness of an optional string request field:
`undefined` and the empty string are falsy. -/
def jsTruthyStr : Option String → Bool
  | none => false
  | some s => !(s == "")

/-- JavaScript `value || dflt` on an optional string field. -/
def jsOrStr (v : Option String) (dflt : String) : String :=
  match v with
  | none => dflt
  | some s => if s == "" then dflt else s

/-- The request body of `POST /api/readings` as the handler destructures
it.  A numeric field is `some n` when the request carries a value that
`parseInt` turns into the integer `n`, and `none` when absent. -/
structure ReqBody where
  deviceId : Option String
  soilValue : Option Int
  ldrValue : Option Int
  soilCondition : Option String
  lightCondition : Option String
deriving DecidableEq, Repr

/-- The reading document the handler constructs and saves: conditions
default to `Unknown` via `||`, `receivedAt = new Date()`. -/
def mkReading (now : Nat) (body : ReqBody) (sv lv : Int) : Reading :=
  { deviceId := (body.deviceId).getD ""
    soilValue := sv
    ldrValue := lv
    soilCondition := jsOrStr body.soilCondition "Unknown"
    lightCondition := jsOrStr body.lightCondition "Unknown"
    receivedAt := now }

/-- Observable outcome of one `POST /api/readings` request: HTTP status,
the reading store after the request, the module-level `lastAlertTime`
after the request, and whether a mail dispatch was attempted. -/
structure IngestResult where
  status : Nat
  store : List Reading
  lastAlertTime : Nat
  attempted : Bool
deriving DecidableEq, Repr

/-- Embedding of the `POST /api/readings` handler of the canonical
variant (server.js lines 534-585; the SendGrid copy at lines 958-1009 is
identical).  In source order:

1. `if (!deviceId)` respond 400, nothing saved;
2. build the reading with `parseInt(soilValue)` / `parseInt(ldrValue)`
   and `await reading.save()`.  When either numeric field is absent,
   `parseInt(undefined)` is `NaN`, the mongoose `Number` cast rejects
   `NaN`, `save()` rejects, and the catch block responds 500 with
   nothing saved;
3. `if (soilCondition is Bad || lightCondition is Bad)` (on the raw
   body fields) `await sendAlert(reading)`;
4. respond 201 with the saved reading. -/
def postReading (configured dispatchOk : Bool) (now : Nat) (body : ReqBody)
    (store : List Reading) (lastAlertTime : Nat) : IngestResult :=
  if !(jsTruthyStr body.deviceId) then ⟨400, store, lastAlertTime, false⟩
  else
    match body.soilValue, body.ldrValue with
    | some sv, some lv =>
      let reading := mkReading now body sv lv
      let saved := store ++ [reading]
      let ar :=
        if body.soilCondition == some "Bad" || body.lightCondition == some "Bad" then
          sendAlert configured dispatchOk now reading lastAlertTime
        else ⟨false, lastAlertTime⟩
      ⟨201, saved, ar.lastAlertTime, ar.attempted⟩
    | _, _ => ⟨500, store, lastAlertTime, false⟩

/-- Embedding of the `POST /api/readings` handler of the "v2.1 MongoDB"
variant (unnamed/part_000 lines 437-487): it additionally rejects with
400 when `soilValue === undefined || ldrValue === undefined`, and calls
no alert logic.  Returns status and the store after the request. -/
def postReadingV21 (now : Nat) (body : ReqBody) (store : List Reading) :
    Nat × List Reading :=
  if !(jsTruthyStr body.deviceId) then (400, store)
  else
    match body.soilValue, body.ldrValue with
    | some sv, some lv => (201, store ++ [mkReading now body sv lv])
    | _, _ => (400, store)

/-- Gmail transporter configuration (server.js lines 390-399 and
unnamed/part_000 lines 44-53): a transporter is created only when both
`EMAIL_USER` and `EMAIL_PASS` are truthy. -/
def gmailConfigured (user pw : Option String) : Bool :=
  jsTruthyStr user && jsTruthyStr pw

/-- String prefix test, modelling JavaScript `startsWith` on the
character sequences of the two strings. -/
def strStartsWith (s p : String) : Bool :=
  p.data.isPrefixOf s.data

/-- SendGrid configuration flag (server.js line 770):
`SENDGRID_API_KEY is set and starts with SG.`. -/
def sendgridConfigured : Option String → Bool
  | none => false
  | some key => strStartsWith key "SG."

/-- The hard-coded test reading of `GET /api/test-email`
(server.js lines 1128-1135). -/
def testReading (now : Nat) : Reading :=
  { deviceId := "TEST-DEVICE"
    soilValue := 100
    ldrValue := 50
    soilCondition := "Bad"
    lightCondition := "Bad"
    receivedAt := now }

/-- Observable outcome of one `GET /api/test-email` request: the
module-level `lastAlertTime` after the request and whether a mail
dispatch was attempted. -/
structure TestEmailResult where
  lastAlertTime : Nat
  attempted : Bool
deriving DecidableEq, Repr

/-- Embedding of the `GET /api/test-email` handler (server.js lines
1113-1160): when unconfigured it responds without touching state;
otherwise it saves `lastAlertTime` into `oldCooldown`, sets
`lastAlertTime = 0`, awaits `sendAlert(testReading)` (which never
rejects: its body is guarded by its own try/catch), and restores
`lastAlertTime = oldCooldown`. -/
def testEmailHandler (configured dispatchOk : Bool) (now : Nat)
    (lastAlertTime : Nat) : TestEmailResult :=
  if !configured then ⟨lastAlertTime, false⟩
  else
    let oldCooldown := lastAlertTime
    let ar := sendAlert configured dispatchOk now (testReading now) 0
    ⟨oldCooldown, ar.attempted⟩

/-- Freshness threshold of the presence computation (server.js lines
609 and 657): `3 * 60 * 1000` milliseconds, i.e. 180 seconds. -/
def threeMinutes : Nat := 3 * 60 * 1000

/-- Embedding of the device-status computation shared by
`GET /api/sensor-data` (server.js lines 604-611) and
`GET /api/readings/latest` (lines 656-658):
`timeSinceLastReading < threeMinutes gives Connected, else Disconnected`. -/
def deviceStatus (timeSinceLastReading : Nat) : String :=
  if timeSinceLastReading < threeMinutes then "Connected" else "Disconnected"

/-- Device status computed from the wall clock and the latest reading,
as both handlers do: `timeSinceLastReading = Date.now() - receivedAt`. -/
def latestStatus (now : Nat) (latest : Reading) : String :=
  deviceStatus (now - latest.receivedAt)

/-! ### Helper lemmas -/

/-- The hour test of `isNightTime` agrees with membership of the local
minute-of-day in the half-open night interval [19:00, 06:00). -/
theorem isNightTime_eq_true_iff (now : Nat) :
    isNightTime now = true ↔
      1140 ≤ localMinuteOfDay now ∨ localMinuteOfDay now < 360 := by
  unfold isNightTime localMinuteOfDay
  simp only [Bool.or_eq_true, decide_eq_true_eq]
  omega

/-- Under a configured transporter, an expired cooldown and an eligible
condition, `sendAlert` calls the dispatcher once and updates
`lastAlertTime` to `now` exactly when the dispatcher succeeds. -/
theorem sendAlert_dispatch (dispatchOk : Bool) (now lastAlertTime : Nat)
    (r : Reading)
    (hcool : lastAlertTime + ALERT_COOLDOWN ≤ now)
    (helig : r.soilCondition = "Bad" ∨
      (r.lightCondition = "Bad" ∧ isNightTime now = false)) :
    sendAlert true dispatchOk now r lastAlertTime =
      ⟨true, if dispatchOk then now else lastAlertTime⟩ := by
  unfold sendAlert
  have hc : ¬ (now - lastAlertTime < ALERT_COOLDOWN) := by
    unfold ALERT_COOLDOWN at hcool ⊢; omega
  simp only [Bool.not_true, Bool.false_eq_true, if_false, if_neg hc]
  rcases helig with hs | ⟨hl, hn⟩
  · have : (r.soilCondition == "Bad") = true := by
      simp [hs]
    simp only [this]
    cases dispatchOk <;> simp
  · have hl' : (r.lightCondition == "Bad") = true := by
      simp [hl]
    simp only [hl', hn]
    cases dispatchOk <;> simp

/-- With an active cooldown, `sendAlert` dispatches nothing and leaves
the timestamp unchanged. -/
theorem sendAlert_cooldown_active (configured dispatchOk : Bool)
    (now lastAlertTime : Nat) (r : Reading)
    (h : now - lastAlertTime < ALERT_COOLDOWN) :
    sendAlert configured dispatchOk now r lastAlertTime =
      ⟨false, lastAlertTime⟩ := by
  unfold sendAlert
  cases configured <;> simp [h]

/-! ### Claim theorems -/

/-- C7: the night classification returns true exactly when the UTC hour
of the clock shifted by the Nepal offset (5 h 45 min) is at least 19 or
strictly below 6 - equivalently, exactly when the local civil
minute-of-day lies in the half-open interval [19:00, 06:00) - for every
input clock time. -/
theorem isNightTime_spec (now : Nat) :
    (isNightTime now = true ↔
      (19 ≤ (now + nepalOffset) / 3600000 % 24 ∨
       (now + nepalOffset) / 3600000 % 24 < 6)) ∧
    (isNightTime now = true ↔
      (1140 ≤ localMinuteOfDay now ∨ localMinuteOfDay now < 360)) := by
  constructor
  · unfold isNightTime
    simp only [Bool.or_eq_true, decide_eq_true_eq]
  · exact isNightTime_eq_true_iff now

/-- C8: device presence is Connected iff the elapsed time since the
latest reading is strictly below the 180000 ms (180 s) threshold and
Disconnected otherwise; at 179 s it reads Connected, at 181 s
Disconnected, so the status flips exactly at the threshold. -/
theorem deviceStatus_spec (elapsedMs : Nat) :
    (deviceStatus elapsedMs = "Connected" ↔ elapsedMs < 180000) ∧
    (deviceStatus elapsedMs = "Disconnected" ↔ 180000 ≤ elapsedMs) ∧
    deviceStatus 179000 = "Connected" ∧
    deviceStatus 181000 = "Disconnected" ∧
    deviceStatus 179999 = "Connected" ∧
    deviceStatus 180000 = "Disconnected" := by
  unfold deviceStatus threeMinutes
  refine ⟨?_, ?_, by norm_num, by norm_num, by norm_num, by norm_num⟩
  · constructor
    · intro h
      by_contra hc
      rw [if_neg (by omega)] at h
      exact absurd h (by decide)
    · intro h
      rw [if_pos (by omega)]
  · constructor
    · intro h
      by_contra hc
      rw [if_pos (by omega)] at h
      exact absurd h (by decide)
    · intro h
      rw [if_neg (by omega)]

/-- C1 counterexample: a soil-Bad reading reaching the dispatch step
(cooldown expired, transporter configured) with a failing dispatcher
leaves `lastAlertTime` at its old value 0 instead of setting it to the
current time 1800000, refuting the claim that the cooldown timestamp is
updated to now regardless of dispatcher outcome. -/
theorem sendAlert_failure_keeps_cooldown_cex :
    (sendAlert true false 1800000
      ⟨"D1", 2800, 3200, "Bad", "Good", 1800000⟩ 0).attempted = true ∧
    (sendAlert true false 1800000
      ⟨"D1", 2800, 3200, "Bad", "Good", 1800000⟩ 0).lastAlertTime ≠ 1800000 := by
  decide

/-- C1 amended: whenever a dispatch is attempted (cooldown expired and an
eligible condition), `lastAlertTime` is set to now exactly when the
dispatcher succeeds; a dispatcher error is caught and leaves
`lastAlertTime` unchanged, so the next eligible reading may attempt again
immediately. -/
theorem sendAlert_cooldown_on_success_only (dispatchOk : Bool)
    (now lastAlertTime : Nat) (r : Reading)
    (hcool : lastAlertTime + ALERT_COOLDOWN ≤ now)
    (helig : r.soilCondition = "Bad" ∨
      (r.lightCondition = "Bad" ∧ isNightTime now = false)) :
    (sendAlert true dispatchOk now r lastAlertTime).attempted = true ∧
    (sendAlert true dispatchOk now r lastAlertTime).lastAlertTime =
      (if dispatchOk then now else lastAlertTime) := by
  rw [sendAlert_dispatch dispatchOk now lastAlertTime r hcool helig]
  cases dispatchOk <;> simp

/-- Witness for the amended C1 at a concrete failing dispatch. -/
theorem sendAlert_cooldown_on_success_only_witness :
    0 + ALERT_COOLDOWN ≤ 1800000 ∧
    (sendAlert true false 1800000
      ⟨"D1", 2800, 3200, "Bad", "Good", 0⟩ 0).attempted = true ∧
    (sendAlert true false 1800000
      ⟨"D1", 2800, 3200, "Bad", "Good", 0⟩ 0).lastAlertTime = 0 :=
  ⟨by decide,
   (sendAlert_cooldown_on_success_only false 1800000 0
     ⟨"D1", 2800, 3200, "Bad", "Good", 0⟩ (by decide) (Or.inl rfl)).1,
   by simpa using (sendAlert_cooldown_on_success_only false 1800000 0
     ⟨"D1", 2800, 3200, "Bad", "Good", 0⟩ (by decide) (Or.inl rfl)).2⟩

/-- C2: a reading whose light condition is Bad and whose soil condition
is not Bad, arriving while the local civil minute-of-day lies in the
night interval [19:00, 06:00), produces no dispatch and leaves the
cooldown timestamp untouched, for every cooldown state, configuration
and dispatcher behaviour. -/
theorem night_lightOnly_no_alert (configured dispatchOk : Bool)
    (now lastAlertTime : Nat) (r : Reading)
    (_hlight : r.lightCondition = "Bad")
    (hsoil : r.soilCondition ≠ "Bad")
    (hnight : 1140 ≤ localMinuteOfDay now ∨ localMinuteOfDay now < 360) :
    sendAlert configured dispatchOk now r lastAlertTime =
      ⟨false, lastAlertTime⟩ := by
  have hn : isNightTime now = true := (isNightTime_eq_true_iff now).mpr hnight
  unfold sendAlert
  cases configured
  · simp
  · by_cases h : now - lastAlertTime < ALERT_COOLDOWN
    · simp [h]
    · have hs : (r.soilCondition == "Bad") = false := by
        simp [hsoil]
      simp [h, hn, hs]

/-- Witness for C2: 19:30 local civil time (epoch + 49500000 ms), cooldown
long expired, light Bad and soil Good, yet no dispatch and no mutation. -/
theorem night_lightOnly_no_alert_witness :
    ((⟨"D1", 1, 1, "Good", "Bad", 0⟩ : Reading).lightCondition = "Bad") ∧
    ((⟨"D1", 1, 1, "Good", "Bad", 0⟩ : Reading).soilCondition ≠ "Bad") ∧
    1140 ≤ localMinuteOfDay 49500000 ∧
    sendAlert true true 49500000 ⟨"D1", 1, 1, "Good", "Bad", 0⟩ 0 =
      ⟨false, 0⟩ :=
  ⟨rfl, by decide, by decide,
   night_lightOnly_no_alert true true 49500000 0
     ⟨"D1", 1, 1, "Good", "Bad", 0⟩ rfl (by decide) (Or.inl (by decide))⟩

/-- C3: a valid reading with soil condition Bad, submitted with no prior
alert inside the cooldown window, is accepted with 201, stored, causes
exactly one dispatch, and advances the cooldown timestamp to the
submission time - with no time-of-day hypothesis, i.e. at any hour. -/
theorem soilBad_dispatches (now lastAlertTime : Nat) (sv lv : Int)
    (body : ReqBody) (store : List Reading)
    (hdev : jsTruthyStr body.deviceId = true)
    (hsv : body.soilValue = some sv) (hlv : body.ldrValue = some lv)
    (hsoil : body.soilCondition = some "Bad")
    (hcool : lastAlertTime + ALERT_COOLDOWN ≤ now) :
    postReading true true now body store lastAlertTime =
      ⟨201, store ++ [mkReading now body sv lv], now, true⟩ := by
  unfold postReading
  rw [hdev, hsv, hlv]
  have hg : (body.soilCondition == some "Bad" ||
      body.lightCondition == some "Bad") = true := by
    simp [hsoil]
  have hr : (mkReading now body sv lv).soilCondition = "Bad" := by
    simp [mkReading, hsoil, jsOrStr]
  have hd := sendAlert_dispatch true now lastAlertTime
    (mkReading now body sv lv) hcool (Or.inl hr)
  simp only [hg, if_true, hd, Bool.not_true, Bool.false_eq_true, if_false]

/-- Witness for C3 at the example scenario of the spec: soil 2800 Bad,
light Good, cooldown never consumed before, submitted at epoch+30 min. -/
theorem soilBad_dispatches_witness :
    jsTruthyStr (some "D1") = true ∧
    0 + ALERT_COOLDOWN ≤ 1800000 ∧
    postReading true true 1800000
      ⟨some "D1", some 2800, some 3200, some "Bad", some "Good"⟩ [] 0 =
      ⟨201,
       [mkReading 1800000
         ⟨some "D1", some 2800, some 3200, some "Bad", some "Good"⟩ 2800 3200],
       1800000, true⟩ :=
  ⟨by decide, by decide,
   soilBad_dispatches 1800000 0 2800 3200
     ⟨some "D1", some 2800, some 3200, some "Bad", some "Good"⟩ []
     (by decide) rfl rfl rfl (by decide)⟩

/-- C4 counterexample: in the canonical server.js handler a body with a
deviceId but no soilValue is answered with 500 (mongoose cast failure at
save), not with the claimed 400 client error. -/
theorem postReading_missing_value_cex :
    (postReading true true 1000
      ⟨some "D1", none, some 3200, none, none⟩ [] 0).status = 500 ∧
    (postReading true true 1000
      ⟨some "D1", none, some 3200, none, none⟩ [] 0).status ≠ 400 := by
  decide

/-- C4 amended: the canonical server.js handler returns 400 iff deviceId
is missing (or empty); a present deviceId with a missing numeric value
yields a 500 persistence error instead, and 201 iff deviceId and both
numeric values are present; failed submissions persist nothing.  The
v2.1 handler (unnamed/part_000) returns 400 iff deviceId or either
numeric value is missing, exactly as the original claim states. -/
theorem postReading_validation (configured dispatchOk : Bool)
    (now lastAlertTime : Nat) (body : ReqBody) (store : List Reading) :
    ((postReading configured dispatchOk now body store lastAlertTime).status = 400 ↔
      jsTruthyStr body.deviceId = false) ∧
    ((postReading configured dispatchOk now body store lastAlertTime).status = 201 ↔
      (jsTruthyStr body.deviceId = true ∧
        body.soilValue ≠ none ∧ body.ldrValue ≠ none)) ∧
    ((postReading configured dispatchOk now body store lastAlertTime).status ≠ 201 →
      (postReading configured dispatchOk now body store lastAlertTime).store = store) ∧
    ((postReadingV21 now body store).1 = 400 ↔
      (jsTruthyStr body.deviceId = false ∨
        body.soilValue = none ∨ body.ldrValue = none)) ∧
    ((postReadingV21 now body store).1 = 201 ↔
      (jsTruthyStr body.deviceId = true ∧
        body.soilValue ≠ none ∧ body.ldrValue ≠ none)) ∧
    ((postReadingV21 now body store).1 ≠ 201 →
      (postReadingV21 now body store).2 = store) := by
  obtain ⟨dev, osv, olv, osc, olc⟩ := body
  cases hdev : jsTruthyStr dev <;> cases osv <;> cases olv <;>
    simp [postReading, postReadingV21, hdev]

/-- Witness for the amended C4: a complete body is accepted with 201 by
the canonical handler, and the v2.1 handler rejects a missing soilValue
with 400. -/
theorem postReading_validation_witness :
    (postReading true true 7
      ⟨some "D1", some 2800, some 3200, some "Bad", some "Good"⟩ [] 0).status = 201 ∧
    (postReadingV21 7 ⟨some "D1", none, some 3200, none, none⟩ []).1 = 400 :=
  ⟨(postReading_validation true true 7 0
      ⟨some "D1", some 2800, some 3200, some "Bad", some "Good"⟩ []).2.1.mpr
      ⟨by decide, by decide, by decide⟩,
   (postReading_validation true true 7 0
      ⟨some "D1", none, some 3200, none, none⟩ []).2.2.2.1.mpr
      (Or.inr (Or.inl rfl))⟩

/-- C5: for an accepted reading, a dispatcher failure is absorbed inside
`sendAlert`: the request is answered 201 and the reading is stored, with
status and store identical to a run in which the dispatcher succeeds. -/
theorem dispatchFailure_isolated (configured : Bool)
    (now lastAlertTime : Nat) (sv lv : Int)
    (body : ReqBody) (store : List Reading)
    (hdev : jsTruthyStr body.deviceId = true)
    (hsv : body.soilValue = some sv) (hlv : body.ldrValue = some lv) :
    (postReading configured false now body store lastAlertTime).status = 201 ∧
    (postReading configured false now body store lastAlertTime).store =
      store ++ [mkReading now body sv lv] ∧
    (postReading configured false now body store lastAlertTime).status =
      (postReading configured true now body store lastAlertTime).status ∧
    (postReading configured false now body store lastAlertTime).store =
      (postReading configured true now body store lastAlertTime).store := by
  unfold postReading
  rw [hdev, hsv, hlv]
  simp

/-- Witness for C5: the dispatcher fails on a soil-Bad reading, yet the
request is answered 201 with the reading stored, matching the
successful-dispatch run. -/
theorem dispatchFailure_isolated_witness :
    jsTruthyStr (some "D1") = true ∧
    (postReading true false 1800000
      ⟨some "D1", some 2800, some 3200, some "Bad", some "Good"⟩ [] 0).status = 201 ∧
    (postReading true false 1800000
      ⟨some "D1", some 2800, some 3200, some "Bad", some "Good"⟩ [] 0).store =
      [mkReading 1800000
        ⟨some "D1", some 2800, some 3200, some "Bad", some "Good"⟩ 2800 3200] :=
  ⟨by decide,
   (dispatchFailure_isolated true 1800000 0 2800 3200
     ⟨some "D1", some 2800, some 3200, some "Bad", some "Good"⟩ []
     (by decide) rfl rfl).1,
   (dispatchFailure_isolated true 1800000 0 2800 3200
     ⟨some "D1", some 2800, some 3200, some "Bad", some "Good"⟩ []
     (by decide) rfl rfl).2.1⟩

/-- C6: of two consecutive Bad readings less than the cooldown apart, the
first (eligible, past cooldown, dispatcher succeeding) is the only
dispatch: the second call is suppressed by the cooldown check, attempts
nothing and leaves the cooldown timestamp at the first dispatch time. -/
theorem second_reading_suppressed (dispatchOk2 : Bool) (t1 t2 last0 : Nat)
    (r1 r2 : Reading)
    (hcool : last0 + ALERT_COOLDOWN ≤ t1)
    (helig : r1.soilCondition = "Bad" ∨
      (r1.lightCondition = "Bad" ∧ isNightTime t1 = false))
    (_horder : t1 ≤ t2) (hgap : t2 - t1 < ALERT_COOLDOWN) :
    sendAlert true true t1 r1 last0 = ⟨true, t1⟩ ∧
    sendAlert true dispatchOk2 t2 r2
        ((sendAlert true true t1 r1 last0).lastAlertTime) =
      ⟨false, (sendAlert true true t1 r1 last0).lastAlertTime⟩ := by
  have h1 : sendAlert true true t1 r1 last0 = ⟨true, t1⟩ := by
    simpa using sendAlert_dispatch true t1 last0 r1 hcool helig
  refine ⟨h1, ?_⟩
  rw [h1]
  exact sendAlert_cooldown_active true dispatchOk2 t2 t1 r2 hgap

/-- Witness for C6: two soil-Bad readings one millisecond apart; the
first dispatches at t=1800000, the second is suppressed. -/
theorem second_reading_suppressed_witness :
    0 + ALERT_COOLDOWN ≤ 1800000 ∧
    (1800001 : Nat) - 1800000 < ALERT_COOLDOWN ∧
    sendAlert true true 1800000 ⟨"D1", 2800, 3200, "Bad", "Good", 1800000⟩ 0 =
      ⟨true, 1800000⟩ ∧
    sendAlert true true 1800001 ⟨"D1", 2801, 3201, "Bad", "Good", 1800001⟩
        ((sendAlert true true 1800000
          ⟨"D1", 2800, 3200, "Bad", "Good", 1800000⟩ 0).lastAlertTime) =
      ⟨false, (sendAlert true true 1800000
          ⟨"D1", 2800, 3200, "Bad", "Good", 1800000⟩ 0).lastAlertTime⟩ :=
  ⟨by decide, by decide,
   (second_reading_suppressed true 1800000 1800001 0
     ⟨"D1", 2800, 3200, "Bad", "Good", 1800000⟩
     ⟨"D1", 2801, 3201, "Bad", "Good", 1800001⟩
     (by decide) (Or.inl rfl) (by decide) (by decide)).1,
   (second_reading_suppressed true 1800000 1800001 0
     ⟨"D1", 2800, 3200, "Bad", "Good", 1800000⟩
     ⟨"D1", 2801, 3201, "Bad", "Good", 1800001⟩
     (by decide) (Or.inl rfl) (by decide) (by decide)).2⟩

/-- C9: a completed `GET /api/test-email` request leaves the process-wide
cooldown timestamp exactly as it was before the request, for every
configuration, dispatcher behaviour, clock and prior cooldown state -
the handler saves the value, zeroes it for the test send, and restores
it afterwards; the second conjunct shows the run is not vacuous: with a
configured transporter and a clock past the cooldown span, the test send
is actually attempted and the timestamp is still restored. -/
theorem testEmail_preserves_cooldown (configured dispatchOk : Bool)
    (now lastAlertTime : Nat) :
    ((testEmailHandler configured dispatchOk now lastAlertTime).lastAlertTime =
      lastAlertTime) ∧
    (testEmailHandler true true 3600000 lastAlertTime).attempted = true := by
  constructor
  · unfold testEmailHandler
    cases configured <;> simp
  · unfold testEmailHandler
    simp only [Bool.not_true, Bool.false_eq_true, if_false]
    decide

/-- C10: with no configured transporter (missing Gmail credentials, or a
SendGrid key that does not start with SG.), `sendAlert` returns without
any dispatch and without touching the cooldown timestamp, and ingestion
of a valid reading still succeeds with the reading stored. -/
theorem unconfigured_no_dispatch (dispatchOk : Bool)
    (now lastAlertTime : Nat) (r : Reading) (sv lv : Int)
    (body : ReqBody) (store : List Reading)
    (hdev : jsTruthyStr body.deviceId = true)
    (hsv : body.soilValue = some sv) (hlv : body.ldrValue = some lv) :
    sendAlert false dispatchOk now r lastAlertTime = ⟨false, lastAlertTime⟩ ∧
    (postReading false dispatchOk now body store lastAlertTime).status = 201 ∧
    (postReading false dispatchOk now body store lastAlertTime).store =
      store ++ [mkReading now body sv lv] ∧
    (postReading false dispatchOk now body store lastAlertTime).lastAlertTime =
      lastAlertTime ∧
    (postReading false dispatchOk now body store lastAlertTime).attempted = false ∧
    gmailConfigured none none = false ∧
    gmailConfigured (some "user at gmail") none = false ∧
    sendgridConfigured none = false ∧
    sendgridConfigured (some "APIKEY-not-sendgrid") = false := by
  have hno : sendAlert false dispatchOk now r lastAlertTime =
      ⟨false, lastAlertTime⟩ := by
    unfold sendAlert
    simp
  refine ⟨hno, ?_⟩
  unfold postReading
  rw [hdev, hsv, hlv]
  have hno2 : ∀ rr : Reading, sendAlert false dispatchOk now rr lastAlertTime =
      ⟨false, lastAlertTime⟩ := by
    intro rr
    unfold sendAlert
    simp
  refine ⟨?_, ?_, ?_, ?_, by decide, by decide, by decide, by decide⟩ <;>
    simp [hno2]

/-- Witness for C10: unconfigured transporter, soil-Bad valid reading -
no dispatch, cooldown untouched, ingestion answered 201. -/
theorem unconfigured_no_dispatch_witness :
    jsTruthyStr (some "D1") = true ∧
    sendAlert false true 1800000
      ⟨"D1", 2800, 3200, "Bad", "Good", 1800000⟩ 5 = ⟨false, 5⟩ ∧
    (postReading false true 1800000
      ⟨some "D1", some 2800, some 3200, some "Bad", some "Good"⟩ [] 5).status =
      201 :=
  ⟨by decide,
   (unconfigured_no_dispatch true 1800000 5
     ⟨"D1", 2800, 3200, "Bad", "Good", 1800000⟩ 2800 3200
     ⟨some "D1", some 2800, some 3200, some "Bad", some "Good"⟩ []
     (by decide) rfl rfl).1,
   (unconfigured_no_dispatch true 1800000 5
     ⟨"D1", 2800, 3200, "Bad", "Good", 1800000⟩ 2800 3200
     ⟨some "D1", some 2800, some 3200, some "Bad", some "Good"⟩ []
     (by decide) rfl rfl).2.1⟩

end PlantMonitor
